import Mathlib

/-!
Verification of the Forza telemetry-to-Arduino bridge pipeline: packet
decoding at fixed offsets, G-force computation with clamping and rounding,
the serial line-protocol encoders (legacy 3-field and extended 10-field),
the transmit sink, and the per-datagram processing step of the console and
GUI program variants.

Numeric telemetry fields are modelled as exact rationals; the derived
scalar speed uses the real square root.  Wall-clock timestamps, which the
source attaches to each G-force sample, are omitted: no verified statement
concerns them.  Decimal output formatting of the C++ output streams is
modelled by exact fixed-point rendering of rationals.
-/

namespace Forza

/-- One received UDP datagram: its byte length together with the two views
the source takes of the receive buffer via reinterpret casts, as an array
of 32-bit floats (the C++ values[i]) and as raw bytes (byte_data[i]). -/
structure Datagram where
  len : ℕ
  floats : ℕ → ℚ
  bytes : ℕ → Fin 256

/-- Sign reinterpretation of one byte as a signed int8, modelling the C++
static_cast of a uint8_t value to int8_t. -/
def int8_of_byte (b : Fin 256) : ℤ :=
  if (b : ℕ) < 128 then ((b : ℕ) : ℤ) else ((b : ℕ) : ℤ) - 256

/-- The decoded telemetry frame, mirroring the C++ TelemetryData struct.
The derived speed and speed_mph members of the source struct are exposed
below as the functions speed and speed_mph of the stored velocities. -/
structure TelemetryData where
  current_engine_rpm : ℚ
  accel_x : ℚ
  accel_y : ℚ
  accel_z : ℚ
  velocity_x : ℚ
  velocity_y : ℚ
  velocity_z : ℚ
  suspension_fl : ℚ
  suspension_fr : ℚ
  suspension_rl : ℚ
  suspension_rr : ℚ
  throttle : ℕ
  brake : ℕ
  steering : ℤ
deriving DecidableEq

/-- The packet decoder: buffers shorter than 308 bytes are rejected,
otherwise the fields of interest are read at the fixed float indices
4-10 and 17-20, and the actuator bytes at base offset 232 (+0 throttle,
+1 brake, +4 steering as int8). -/
def parse_telemetry_packet (d : Datagram) : Option TelemetryData :=
  if d.len < 308 then none
  else some
    { current_engine_rpm := d.floats 4
      accel_x := d.floats 5
      accel_y := d.floats 6
      accel_z := d.floats 7
      velocity_x := d.floats 8
      velocity_y := d.floats 9
      velocity_z := d.floats 10
      suspension_fl := d.floats 17
      suspension_fr := d.floats 18
      suspension_rl := d.floats 19
      suspension_rr := d.floats 20
      throttle := (d.bytes 232 : ℕ)
      brake := (d.bytes 233 : ℕ)
      steering := int8_of_byte (d.bytes 236) }

/-- Derived speed in m/s: sqrt of the sum of squared velocity components,
as computed inside the decoder. -/
noncomputable def speed (t : TelemetryData) : ℝ :=
  Real.sqrt ((t.velocity_x : ℝ) ^ 2 + (t.velocity_y : ℝ) ^ 2 + (t.velocity_z : ℝ) ^ 2)

/-- Derived speed in mph, speed * 2.23694. -/
noncomputable def speed_mph (t : TelemetryData) : ℝ :=
  speed t * 2.23694

/-- A G-force sample (timestamp omitted, see the file comment). -/
structure GForces where
  longitudinal : ℚ
  lateral : ℚ
  vertical : ℚ
deriving DecidableEq

/-- Round-half-away-from-zero to an integer, the semantics of std::round. -/
def roundHalfAwayZ (q : ℚ) : ℤ :=
  if 0 ≤ q then ⌊q + 1 / 2⌋ else ⌈q - 1 / 2⌉

/-- The source's round_to_places: std::round(value * 10^places) / 10^places. -/
def round_to_places (value : ℚ) (places : ℕ) : ℚ :=
  let multiplier : ℚ := 10 ^ places
  (roundHalfAwayZ (value * multiplier) : ℚ) / multiplier

/-- The motion model calculate_g_forces: sign-corrected division by
9.81, the gravity baseline on the vertical axis, safety clamps, and
rounding to 3 decimal places. -/
def calculate_g_forces (t : TelemetryData) : GForces :=
  let G_FORCE : ℚ := 981 / 100
  let g_longitudinal := -t.accel_z / G_FORCE
  let g_lateral := t.accel_x / G_FORCE
  let g_vertical := t.accel_y / G_FORCE + 1
  let g_longitudinal := max (-3) (min 3 g_longitudinal)
  let g_lateral := max (-3) (min 3 g_lateral)
  let g_vertical := max (-1) (min 4 g_vertical)
  { longitudinal := round_to_places g_longitudinal 3
    lateral := round_to_places g_lateral 3
    vertical := round_to_places g_vertical 3 }

/-- Left-pad a digit string with zeros to the requested width. -/
def padZeros (s : String) (width : ℕ) : String :=
  String.mk (List.replicate (width - s.length) '0') ++ s

/-- Fixed-point decimal rendering of a rational, modelling the output of
the C++ stream under std::fixed with the given setprecision. -/
def formatFixed (value : ℚ) (prec : ℕ) : String :=
  let scaled := roundHalfAwayZ (value * 10 ^ prec)
  let sign := if scaled < 0 then "-" else ""
  let m := scaled.natAbs
  if prec = 0 then sign ++ toString m
  else sign ++ toString (m / 10 ^ prec) ++ "." ++ padZeros (toString (m % 10 ^ prec)) prec

/-- The extended 10-field line built by the GUI variant's send_to_arduino:
G-forces at 3 decimals, throttle and brake percentages at 1 decimal,
steering as a plain signed integer, suspension travels at 2 decimals,
terminated by a newline character. -/
def extended_line (g : GForces) (t : TelemetryData) : String :=
  formatFixed g.longitudinal 3 ++ "," ++ formatFixed g.lateral 3 ++ ","
    ++ formatFixed g.vertical 3 ++ ","
    ++ formatFixed ((t.throttle : ℚ) / 255 * 100) 1 ++ ","
    ++ formatFixed ((t.brake : ℚ) / 255 * 100) 1 ++ ","
    ++ toString t.steering ++ ","
    ++ formatFixed t.suspension_fl 2 ++ ","
    ++ formatFixed t.suspension_fr 2 ++ ","
    ++ formatFixed t.suspension_rl 2 ++ ","
    ++ formatFixed t.suspension_rr 2 ++ "\n"

/-- The legacy 3-field line built by the console variant's send_to_arduino.
The source appends the two-character sequence backslash-n (its string
literal is an escaped backslash followed by n, annotated in the source as
the literal backslash-n of the original Python), not a newline. -/
def legacy_line (g : GForces) : String :=
  formatFixed g.longitudinal 3 ++ "," ++ formatFixed g.lateral 3 ++ ","
    ++ formatFixed g.vertical 3 ++ "\\n"

/-- Outcome of one WriteFile call on the serial handle: whether the call
succeeded and how many bytes it reports written. -/
structure WriteResult where
  ok : Bool
  bytes_written : ℕ

/-- The extended transmit sink: fail when the serial handle is invalid
(without writing), fail when WriteFile fails, otherwise succeed exactly
when the reported byte count equals the line length.  The second component
records the lines actually handed to WriteFile. -/
def send_to_arduino (serial_open : Bool) (writeFile : String → WriteResult)
    (g : GForces) (t : TelemetryData) : Bool × List String :=
  if serial_open = false then (false, [])
  else
    let s := extended_line g t
    let r := writeFile s
    if r.ok = false then (false, [s])
    else (r.bytes_written == s.length, [s])

/-- The legacy transmit sink, identical in structure to the extended one
but writing the 3-field line. -/
def send_to_arduino_legacy (serial_open : Bool) (writeFile : String → WriteResult)
    (g : GForces) : Bool × List String :=
  if serial_open = false then (false, [])
  else
    let s := legacy_line g
    let r := writeFile s
    if r.ok = false then (false, [s])
    else (r.bytes_written == s.length, [s])

/-- Speed in km/h as computed per cycle, speed * 3.6. -/
noncomputable def speed_kmh (t : TelemetryData) : ℝ :=
  speed t * 3.6

/-- The activity classification: speed_kmh > 1.0 or engine rpm > 1000. -/
def IsActive (t : TelemetryData) : Prop :=
  speed_kmh t > 1 ∨ t.current_engine_rpm > 1000

/-- The fixed neutral G-force sample sent while idle. -/
def neutral_gforces : GForces :=
  { longitudinal := 0, lateral := 0, vertical := 1 }

/-- The shared UI snapshot written by the GUI variant's processing step. -/
structure UIState where
  packet_count : ℕ
  is_connected : Bool
  current_telemetry : TelemetryData
  current_gforces : GForces
  arduino_success : Bool
  active : Prop

open Classical in
/-- The GUI variant's process_telemetry_packet: parse (returning unchanged
state on failure), classify activity, compute or substitute G-forces, send
the extended line, then publish the snapshot with the incremented packet
counter.  The second component is the list of lines handed to WriteFile. -/
noncomputable def process_telemetry_packet (serial_open : Bool)
    (writeFile : String → WriteResult) (st : UIState) (d : Datagram) :
    UIState × List String :=
  match parse_telemetry_packet d with
  | none => (st, [])
  | some t =>
      let gf := if IsActive t then calculate_g_forces t else neutral_gforces
      let res := send_to_arduino serial_open writeFile gf t
      ({ packet_count := st.packet_count + 1
         is_connected := true
         current_telemetry := t
         current_gforces := gf
         arduino_success := res.1
         active := IsActive t }, res.2)

/-- Result of one received datagram in the console variant's run loop. -/
structure RunCycle where
  packet_count : ℕ
  sent : List String
  success : Option Bool

open Classical in
/-- The console variant's handling of one received datagram inside run():
the packet counter is incremented first, then the datagram is parsed; on
parse failure the iteration just continues, otherwise the legacy line for
the real or neutral G-forces is sent. -/
noncomputable def run_receive_step (serial_open : Bool)
    (writeFile : String → WriteResult) (packet_count : ℕ) (d : Datagram) : RunCycle :=
  let count := packet_count + 1
  match parse_telemetry_packet d with
  | none => { packet_count := count, sent := [], success := none }
  | some t =>
      let gf := if IsActive t then calculate_g_forces t else neutral_gforces
      let res := send_to_arduino_legacy serial_open writeFile gf
      { packet_count := count, sent := res.2, success := some res.1 }

/-- The leading G-force third of the extended line. -/
def gforce_head (g : GForces) : String :=
  formatFixed g.longitudinal 3 ++ "," ++ formatFixed g.lateral 3 ++ ","
    ++ formatFixed g.vertical 3 ++ ","

/-- The trailing actuator part of the extended line: throttle and brake
percentages, steering, and the four suspension travels. -/
def actuator_tail (t : TelemetryData) : String :=
  formatFixed ((t.throttle : ℚ) / 255 * 100) 1 ++ ","
    ++ formatFixed ((t.brake : ℚ) / 255 * 100) 1 ++ ","
    ++ toString t.steering ++ ","
    ++ formatFixed t.suspension_fl 2 ++ ","
    ++ formatFixed t.suspension_fr 2 ++ ","
    ++ formatFixed t.suspension_rl 2 ++ ","
    ++ formatFixed t.suspension_rr 2 ++ "\n"

/-- A frame with every stored field zero. -/
def zeroFrame : TelemetryData :=
  { current_engine_rpm := 0, accel_x := 0, accel_y := 0, accel_z := 0
    velocity_x := 0, velocity_y := 0, velocity_z := 0
    suspension_fl := 0, suspension_fr := 0, suspension_rl := 0, suspension_rr := 0
    throttle := 0, brake := 0, steering := 0 }

/-- A 10-byte datagram, below the 308-byte minimum. -/
def shortDatagram : Datagram :=
  { len := 10, floats := fun _ => 0, bytes := fun _ => 0 }

/-- A 308-byte all-zero datagram. -/
def fullDatagram : Datagram :=
  { len := 308, floats := fun _ => 0, bytes := fun _ => 0 }

/-- A 308-byte datagram carrying the actuator-byte scenario values
255, 128, _, _, 200 at byte offset 232. -/
def scenarioDatagram : Datagram :=
  { len := 308, floats := fun _ => 0
    bytes := fun i => if i = 232 then 255 else if i = 233 then 128 else if i = 236 then 200 else 0 }

/-- The 1G-braking scenario frame: accel_z = -9.81, other accelerations
zero, engine rpm 2000 so the frame is active. -/
def scenarioFrame : TelemetryData :=
  { current_engine_rpm := 2000, accel_x := 0, accel_y := 0, accel_z := -(981 / 100)
    velocity_x := 0, velocity_y := 0, velocity_z := 0
    suspension_fl := 0, suspension_fr := 0, suspension_rl := 0, suspension_rr := 0
    throttle := 0, brake := 0, steering := 0 }

/-- A frame braking at ten times gravity, far beyond the clamp range. -/
def bigBrakeFrame : TelemetryData :=
  { current_engine_rpm := 0, accel_x := 0, accel_y := 0, accel_z := -(981 / 10)
    velocity_x := 0, velocity_y := 0, velocity_z := 0
    suspension_fl := 0, suspension_fr := 0, suspension_rl := 0, suspension_rr := 0
    throttle := 0, brake := 0, steering := 0 }

/-- The clamp-scenario frame with accel_z = -1000. -/
def hardBrakeFrame : TelemetryData :=
  { current_engine_rpm := 0, accel_x := 0, accel_y := 0, accel_z := -1000
    velocity_x := 0, velocity_y := 0, velocity_z := 0
    suspension_fl := 0, suspension_fr := 0, suspension_rl := 0, suspension_rr := 0
    throttle := 0, brake := 0, steering := 0 }

/-- A frame sitting exactly on both activity boundaries: speed of 5/18 m/s
(exactly 1 km/h) and engine rpm exactly 1000. -/
def boundaryFrame : TelemetryData :=
  { current_engine_rpm := 1000, accel_x := 0, accel_y := 0, accel_z := 0
    velocity_x := 5 / 18, velocity_y := 0, velocity_z := 0
    suspension_fl := 0, suspension_fr := 0, suspension_rl := 0, suspension_rr := 0
    throttle := 0, brake := 0, steering := 0 }

/-- An idle frame (all motion zero) with nontrivial actuator values. -/
def idleActuatorFrame : TelemetryData :=
  { current_engine_rpm := 0, accel_x := 0, accel_y := 0, accel_z := 0
    velocity_x := 0, velocity_y := 0, velocity_z := 0
    suspension_fl := 1 / 4, suspension_fr := 1 / 2, suspension_rl := 3 / 4, suspension_rr := 1
    throttle := 200, brake := 50, steering := -10 }

/-- A WriteFile behaviour that always succeeds and writes every byte. -/
def alwaysOk : String → WriteResult :=
  fun s => { ok := true, bytes_written := s.length }

/-- An initial UI snapshot with a zeroed packet counter. -/
def initialUI : UIState :=
  { packet_count := 0, is_connected := false, current_telemetry := zeroFrame
    current_gforces := neutral_gforces, arduino_success := false, active := False }

theorem roundHalfAwayZ_le_of_le {q : ℚ} {n : ℤ} (h : q ≤ (n : ℚ)) :
    roundHalfAwayZ q ≤ n := by
  unfold roundHalfAwayZ
  split
  · exact Int.floor_le_iff.mpr (by linarith)
  · exact (Int.ceil_le).mpr (by linarith)

theorem le_roundHalfAwayZ_of_le {q : ℚ} {n : ℤ} (h : (n : ℚ) ≤ q) :
    n ≤ roundHalfAwayZ q := by
  unfold roundHalfAwayZ
  split
  · exact (Int.le_floor).mpr (by linarith)
  · have hlt : (n - 1 : ℤ) < ⌈q - 1 / 2⌉ := Int.lt_ceil.mpr (by push_cast; linarith)
    omega

theorem round_to_places_le {x : ℚ} {n : ℤ} (h : x ≤ (n : ℚ)) :
    round_to_places x 3 ≤ (n : ℚ) := by
  unfold round_to_places
  rw [div_le_iff₀ (by norm_num : (0 : ℚ) < 10 ^ 3)]
  have hb : x * 10 ^ 3 ≤ ((n * 10 ^ 3 : ℤ) : ℚ) := by
    push_cast
    nlinarith
  have := roundHalfAwayZ_le_of_le hb
  calc (roundHalfAwayZ (x * 10 ^ 3) : ℚ) ≤ ((n * 10 ^ 3 : ℤ) : ℚ) := by exact_mod_cast this
    _ = (n : ℚ) * 10 ^ 3 := by push_cast; ring

theorem le_round_to_places {x : ℚ} {n : ℤ} (h : (n : ℚ) ≤ x) :
    (n : ℚ) ≤ round_to_places x 3 := by
  unfold round_to_places
  rw [le_div_iff₀ (by norm_num : (0 : ℚ) < 10 ^ 3)]
  have hb : ((n * 10 ^ 3 : ℤ) : ℚ) ≤ x * 10 ^ 3 := by
    push_cast
    nlinarith
  have := le_roundHalfAwayZ_of_le hb
  calc (n : ℚ) * 10 ^ 3 = ((n * 10 ^ 3 : ℤ) : ℚ) := by push_cast; ring
    _ ≤ (roundHalfAwayZ (x * 10 ^ 3) : ℚ) := by exact_mod_cast this

theorem string_append_assoc (a b c : String) : a ++ b ++ c = a ++ (b ++ c) := by
  cases a
  cases b
  cases c
  show String.append (String.append _ _) _ = String.append _ (String.append _ _)
  simp [String.append, List.append_assoc]

theorem string_data_append (a b : String) : (a ++ b).data = a.data ++ b.data := by
  cases a
  cases b
  rfl

theorem send_open_writes (w : String → WriteResult) (g : GForces) (t : TelemetryData) :
    (send_to_arduino true w g t).2 = [extended_line g t] := by
  unfold send_to_arduino
  by_cases h : (w (extended_line g t)).ok = false <;> simp [h]

theorem roundHalfAwayZ_nonneg_eq {q : ℚ} {k : ℤ} (h0 : 0 ≤ q) (h : ⌊q + 1 / 2⌋ = k) :
    roundHalfAwayZ q = k := by
  unfold roundHalfAwayZ
  rw [if_pos h0]
  exact h

theorem formatFixed_eval (value : ℚ) (prec : ℕ) (k : ℤ) (hp : prec ≠ 0)
    (h : roundHalfAwayZ (value * 10 ^ prec) = k) :
    formatFixed value prec =
      (if k < 0 then "-" else "") ++ toString (k.natAbs / 10 ^ prec) ++ "."
        ++ padZeros (toString (k.natAbs % 10 ^ prec)) prec := by
  simp only [formatFixed, h, if_neg hp]

theorem formatFixed_zero3 : formatFixed (0 : ℚ) 3 = "0.000" := by
  rw [formatFixed_eval _ _ 0 (by norm_num)
    (roundHalfAwayZ_nonneg_eq (by norm_num) (by norm_num))]
  rfl

theorem formatFixed_one3 : formatFixed (1 : ℚ) 3 = "1.000" := by
  rw [formatFixed_eval _ _ 1000 (by norm_num)
    (roundHalfAwayZ_nonneg_eq (by norm_num) (by norm_num))]
  rfl

/-- C1, counterexample: at accel_z = -98.1 the raw formula rounds to 10 G,
but the motion model emits the clamped 3 G, so the claimed unclamped
formula does not describe the computed longitudinal output. -/
theorem c1_counterexample :
    (calculate_g_forces bigBrakeFrame).longitudinal = 3 ∧
    round_to_places (-bigBrakeFrame.accel_z / (981 / 100)) 3 = 10 ∧
    (calculate_g_forces bigBrakeFrame).longitudinal ≠
      round_to_places (-bigBrakeFrame.accel_z / (981 / 100)) 3 := by
  have h1 : (calculate_g_forces bigBrakeFrame).longitudinal = 3 := by
    simp only [calculate_g_forces, bigBrakeFrame]
    norm_num [round_to_places, roundHalfAwayZ, min_def, max_def]
  have h2 : round_to_places (-bigBrakeFrame.accel_z / (981 / 100)) 3 = 10 := by
    simp only [bigBrakeFrame]
    norm_num [round_to_places, roundHalfAwayZ]
  exact ⟨h1, h2, by rw [h1, h2]; norm_num⟩

/-- C1 (amended): for every decoded frame the motion model computes
longitudinal = -accel_z / 9.81, lateral = accel_x / 9.81 and
vertical = accel_y / 9.81 + 1, clamps longitudinal and lateral to
[-3, 3] and vertical to [-1, 4], then rounds each to 3 decimal places
with round-half-away-from-zero; for an active frame with
accel_z = -9.81 and zero lateral and vertical acceleration the sample
is {1.000, 0.000, 1.000}; ties round away from zero in both signs. -/
theorem c1_motion_model_formula (t : TelemetryData) :
    calculate_g_forces t =
      { longitudinal := round_to_places (max (-3) (min 3 (-t.accel_z / (981 / 100)))) 3
        lateral := round_to_places (max (-3) (min 3 (t.accel_x / (981 / 100)))) 3
        vertical := round_to_places (max (-1) (min 4 (t.accel_y / (981 / 100) + 1))) 3 } ∧
    (IsActive t → t.accel_z = -(981 / 100) → t.accel_x = 0 → t.accel_y = 0 →
      calculate_g_forces t = { longitudinal := 1, lateral := 0, vertical := 1 }) ∧
    round_to_places (1 / 2000) 3 = 1 / 1000 ∧
    round_to_places (-(1 / 2000)) 3 = -(1 / 1000) := by
  refine ⟨rfl, ?_, ?_, ?_⟩
  · intro _ hz hx hy
    simp only [calculate_g_forces, hz, hx, hy, GForces.mk.injEq]
    norm_num [round_to_places, roundHalfAwayZ, min_def, max_def]
  · norm_num [round_to_places, roundHalfAwayZ]
  · norm_num [round_to_places, roundHalfAwayZ, Int.ceil_neg]

/-- C1, witness: the 1G-braking scenario frame evaluates to the sample
{1.000, 0.000, 1.000}. -/
theorem c1_witness :
    calculate_g_forces scenarioFrame = { longitudinal := 1, lateral := 0, vertical := 1 } := by
  refine (c1_motion_model_formula scenarioFrame).2.1 (Or.inr ?_) rfl rfl rfl
  norm_num [scenarioFrame]

/-- C2: for every frame, the motion model output satisfies the clamp
invariants, longitudinal and lateral in [-3, 3] and vertical in [-1, 4];
at accel_z = -1000 the longitudinal output is exactly 3. -/
theorem c2_clamp_invariants (t : TelemetryData) :
    (-3 ≤ (calculate_g_forces t).longitudinal ∧ (calculate_g_forces t).longitudinal ≤ 3) ∧
    (-3 ≤ (calculate_g_forces t).lateral ∧ (calculate_g_forces t).lateral ≤ 3) ∧
    (-1 ≤ (calculate_g_forces t).vertical ∧ (calculate_g_forces t).vertical ≤ 4) ∧
    (t.accel_z = -1000 → (calculate_g_forces t).longitudinal = 3) := by
  have key : ∀ x : ℚ, ∀ a b : ℤ, (a : ℚ) ≤ x → x ≤ (b : ℚ) →
      (a : ℚ) ≤ round_to_places x 3 ∧ round_to_places x 3 ≤ (b : ℚ) :=
    fun x a b h1 h2 => ⟨le_round_to_places h1, round_to_places_le h2⟩
  have hlon := key (max (-3) (min 3 (-t.accel_z / (981 / 100)))) (-3) 3
    (by push_cast; exact le_max_left _ _)
    (by push_cast; exact max_le (by norm_num) (min_le_left _ _))
  have hlat := key (max (-3) (min 3 (t.accel_x / (981 / 100)))) (-3) 3
    (by push_cast; exact le_max_left _ _)
    (by push_cast; exact max_le (by norm_num) (min_le_left _ _))
  have hver := key (max (-1) (min 4 (t.accel_y / (981 / 100) + 1))) (-1) 4
    (by push_cast; exact le_max_left _ _)
    (by push_cast; exact max_le (by norm_num) (min_le_left _ _))
  push_cast at hlon hlat hver
  refine ⟨⟨hlon.1, hlon.2⟩, ⟨hlat.1, hlat.2⟩, ⟨hver.1, hver.2⟩, ?_⟩
  intro hz
  simp only [calculate_g_forces, hz]
  norm_num [round_to_places, roundHalfAwayZ, min_def, max_def]

/-- C2, witness: the clamp bounds and the exact value 3 at the concrete
frame with accel_z = -1000. -/
theorem c2_witness :
    (calculate_g_forces hardBrakeFrame).longitudinal = 3 ∧
    -3 ≤ (calculate_g_forces hardBrakeFrame).longitudinal ∧
    (calculate_g_forces hardBrakeFrame).longitudinal ≤ 3 := by
  have h := c2_clamp_invariants hardBrakeFrame
  exact ⟨h.2.2.2 rfl, h.1.1, h.1.2⟩

/-- C3: decoding fails exactly on buffers shorter than 308 bytes and
produces a full frame on buffers of 308 bytes or more. -/
theorem c3_decode_all_or_nothing (d : Datagram) :
    (d.len < 308 → parse_telemetry_packet d = none) ∧
    (308 ≤ d.len → ∃ t, parse_telemetry_packet d = some t) := by
  constructor
  · intro h
    simp [parse_telemetry_packet, h]
  · intro h
    unfold parse_telemetry_packet
    rw [if_neg (show ¬ d.len < 308 by omega)]
    exact ⟨_, rfl⟩

/-- C3, witness: the 10-byte datagram is rejected and the 308-byte
datagram decodes. -/
theorem c3_witness :
    parse_telemetry_packet shortDatagram = none ∧
    ∃ t, parse_telemetry_packet fullDatagram = some t :=
  ⟨(c3_decode_all_or_nothing shortDatagram).1 (by norm_num [shortDatagram]),
   (c3_decode_all_or_nothing fullDatagram).2 (by norm_num [fullDatagram])⟩

/-- C4: the extended encoder emits exactly the 10-field line with the
claimed precisions and percentages; the scenario bytes 255, 128, _, _,
200 at offset 232 decode to throttle 255, brake 128, steering -56, and
those decoded values encode to throttle percent 100.0 and brake percent
50.2. -/
theorem c4_extended_encoder (g : GForces) (t : TelemetryData) (d : Datagram)
    (hlen : 308 ≤ d.len) (h0 : d.bytes 232 = 255) (h1 : d.bytes 233 = 128)
    (h4 : d.bytes 236 = 200) :
    extended_line g t =
      formatFixed g.longitudinal 3 ++ "," ++ formatFixed g.lateral 3 ++ ","
        ++ formatFixed g.vertical 3 ++ ","
        ++ formatFixed ((t.throttle : ℚ) / 255 * 100) 1 ++ ","
        ++ formatFixed ((t.brake : ℚ) / 255 * 100) 1 ++ ","
        ++ toString t.steering ++ ","
        ++ formatFixed t.suspension_fl 2 ++ ","
        ++ formatFixed t.suspension_fr 2 ++ ","
        ++ formatFixed t.suspension_rl 2 ++ ","
        ++ formatFixed t.suspension_rr 2 ++ "\n" ∧
    (parse_telemetry_packet d).map (fun u => (u.throttle, u.brake, u.steering))
      = some (255, 128, -56) ∧
    formatFixed ((255 : ℚ) / 255 * 100) 1 = "100.0" ∧
    formatFixed ((128 : ℚ) / 255 * 100) 1 = "50.2" := by
  refine ⟨rfl, ?_, ?_, ?_⟩
  · unfold parse_telemetry_packet
    rw [if_neg (show ¬ d.len < 308 by omega)]
    simp [h0, h1, h4, int8_of_byte]
    decide
  · rw [formatFixed_eval _ _ 1000 (by norm_num)
      (roundHalfAwayZ_nonneg_eq (by norm_num) (by norm_num))]
    rfl
  · rw [formatFixed_eval _ _ 502 (by norm_num)
      (roundHalfAwayZ_nonneg_eq (by norm_num) (by norm_num))]
    rfl

/-- C4, witness: the scenario datagram decodes to the claimed actuator
triple, and the percentage fields render as claimed. -/
theorem c4_witness :
    (parse_telemetry_packet scenarioDatagram).map
        (fun u => (u.throttle, u.brake, u.steering)) = some (255, 128, -56) ∧
    formatFixed ((255 : ℚ) / 255 * 100) 1 = "100.0" ∧
    formatFixed ((128 : ℚ) / 255 * 100) 1 = "50.2" := by
  have h := c4_extended_encoder neutral_gforces zeroFrame scenarioDatagram
    (by norm_num [scenarioDatagram]) rfl rfl rfl
  exact ⟨h.2.1, h.2.2.1, h.2.2.2⟩

/-- C5: the activity classification is exactly speed_kmh > 1 or
rpm > 1000, with strict comparisons: on either boundary (speed_kmh = 1,
rpm = 1000), with the other input at or below its bound, the frame is
classified idle. -/
theorem c5_activity_strict_boundary (t : TelemetryData) :
    (IsActive t ↔ (speed_kmh t > 1 ∨ t.current_engine_rpm > 1000)) ∧
    (speed_kmh t = 1 → t.current_engine_rpm = 1000 → ¬ IsActive t) ∧
    (speed_kmh t = 1 → t.current_engine_rpm ≤ 1000 → ¬ IsActive t) ∧
    (speed_kmh t ≤ 1 → t.current_engine_rpm = 1000 → ¬ IsActive t) := by
  refine ⟨Iff.rfl, ?_, ?_, ?_⟩ <;>
  · intro h1 h2 h
    have h' : speed_kmh t > 1 ∨ t.current_engine_rpm > 1000 := h
    rcases h' with h' | h'
    · linarith
    · linarith

/-- C5, witness: the frame sitting exactly on both boundaries
(speed_kmh = 1, rpm = 1000) is idle. -/
theorem c5_witness :
    speed_kmh boundaryFrame = 1 ∧ boundaryFrame.current_engine_rpm = 1000 ∧
    ¬ IsActive boundaryFrame := by
  have hs : speed boundaryFrame = 5 / 18 := by
    unfold speed
    rw [show ((boundaryFrame.velocity_x : ℝ)) ^ 2 + ((boundaryFrame.velocity_y : ℝ)) ^ 2
        + ((boundaryFrame.velocity_z : ℝ)) ^ 2 = (5 / 18 : ℝ) ^ 2 by
      norm_num [boundaryFrame]]
    exact Real.sqrt_sq (by norm_num)
  have hk : speed_kmh boundaryFrame = 1 := by
    unfold speed_kmh
    rw [hs]
    norm_num
  exact ⟨hk, rfl, (c5_activity_strict_boundary boundaryFrame).2.1 hk rfl⟩

/-- C6, counterexample: in the GUI variant, a 10-byte datagram fails to
decode and the published packet counter does not increment. -/
theorem c6_counterexample :
    (process_telemetry_packet true alwaysOk initialUI shortDatagram).1.packet_count
      = initialUI.packet_count ∧
    (process_telemetry_packet true alwaysOk initialUI shortDatagram).1.packet_count
      ≠ initialUI.packet_count + 1 := by
  have h : process_telemetry_packet true alwaysOk initialUI shortDatagram
      = (initialUI, []) := rfl
  rw [h]
  exact ⟨rfl, by simp⟩

/-- C6 (amended): the console loop increments its packet counter before
and independently of the decode outcome (an undersized datagram still
increments it and sends nothing), while the GUI variant publishes the
incremented counter only after a successful decode, so a 10-byte
datagram there leaves the shared state unchanged; neither variant stops
the loop. -/
theorem c6_packet_counter (serial_open : Bool) (writeFile : String → WriteResult)
    (count : ℕ) (st : UIState) (d : Datagram) :
    (run_receive_step serial_open writeFile count d).packet_count = count + 1 ∧
    (d.len < 308 →
      run_receive_step serial_open writeFile count d
        = { packet_count := count + 1, sent := [], success := none } ∧
      process_telemetry_packet serial_open writeFile st d = (st, [])) := by
  constructor
  · unfold run_receive_step
    cases hp : parse_telemetry_packet d <;> simp
  · intro h
    have hp : parse_telemetry_packet d = none := by
      simp [parse_telemetry_packet, h]
    constructor
    · unfold run_receive_step
      rw [hp]
    · unfold process_telemetry_packet
      rw [hp]

/-- C6, witness: the console loop counts the 10-byte datagram while the
GUI variant's state is unchanged by it. -/
theorem c6_witness :
    (run_receive_step true alwaysOk 0 shortDatagram).packet_count = 1 ∧
    process_telemetry_packet true alwaysOk initialUI shortDatagram = (initialUI, []) := by
  have h := c6_packet_counter true alwaysOk 0 initialUI shortDatagram
  exact ⟨h.1, (h.2 (by norm_num [shortDatagram])).2⟩

/-- C7, counterexample: the legacy line for the neutral sample ends in
the two characters backslash and n and contains no line-break character
at all, so it is not terminated by a line-break character. -/
theorem c7_counterexample :
    legacy_line neutral_gforces = "0.000,0.000,1.000\\n" ∧
    '\n' ∉ (legacy_line neutral_gforces).data := by
  have hline : legacy_line neutral_gforces = "0.000,0.000,1.000\\n" := by
    show formatFixed (0 : ℚ) 3 ++ "," ++ formatFixed (0 : ℚ) 3 ++ ","
      ++ formatFixed (1 : ℚ) 3 ++ "\\n" = _
    rw [formatFixed_zero3, formatFixed_one3]
    rfl
  refine ⟨hline, ?_⟩
  rw [hline]
  decide

/-- C7 (amended): for every G-force sample the legacy encoder produces
the three comma-separated 3-decimal fields followed by the two-character
sequence backslash, n (a literal escaped newline, kept from the original
Python), not an actual line-break character. -/
theorem c7_legacy_line_literal (g : GForces) :
    legacy_line g =
      formatFixed g.longitudinal 3 ++ "," ++ formatFixed g.lateral 3 ++ ","
        ++ formatFixed g.vertical 3 ++ "\\n" ∧
    (legacy_line g).data.reverse.take 2 = ['n', '\\'] := by
  refine ⟨rfl, ?_⟩
  have h : legacy_line g
      = (formatFixed g.longitudinal 3 ++ "," ++ formatFixed g.lateral 3 ++ ","
        ++ formatFixed g.vertical 3) ++ "\\n" := rfl
  rw [h, string_data_append]
  rw [show ("\\n" : String).data = ['\\', 'n'] from rfl]
  rw [List.reverse_append]
  rfl

/-- C8: both encoders are pure functions of the sample and frame:
equal inputs give byte-identical output lines. -/
theorem c8_encoder_deterministic (g g' : GForces) (t t' : TelemetryData)
    (hg : g = g') (ht : t = t') :
    (extended_line g t).data = (extended_line g' t').data ∧
    (legacy_line g).data = (legacy_line g').data := by
  subst hg
  subst ht
  exact ⟨rfl, rfl⟩

/-- C8, witness: encoding the neutral sample with the zero frame twice
gives byte-identical lines in both modes. -/
theorem c8_witness :
    (extended_line neutral_gforces zeroFrame).data
      = (extended_line neutral_gforces zeroFrame).data ∧
    (legacy_line neutral_gforces).data = (legacy_line neutral_gforces).data :=
  c8_encoder_deterministic neutral_gforces neutral_gforces zeroFrame zeroFrame rfl rfl

/-- C9: on an idle cycle the GUI variant substitutes only the neutral
G-force triple; the snapshot keeps the real decoded frame and the single
transmitted extended line is the neutral head followed by the frame's
real actuator fields, exactly as an active cycle would append them. -/
theorem c9_idle_neutral_keeps_actuators (writeFile : String → WriteResult)
    (st : UIState) (d : Datagram) (t : TelemetryData)
    (hp : parse_telemetry_packet d = some t) (hidle : ¬ IsActive t) :
    (process_telemetry_packet true writeFile st d).1.current_gforces = neutral_gforces ∧
    (process_telemetry_packet true writeFile st d).1.current_telemetry = t ∧
    (process_telemetry_packet true writeFile st d).2 = [extended_line neutral_gforces t] ∧
    gforce_head neutral_gforces = "0.000,0.000,1.000," ∧
    (∀ g : GForces, extended_line g t = gforce_head g ++ actuator_tail t) := by
  have hproc : process_telemetry_packet true writeFile st d
      = ({ packet_count := st.packet_count + 1, is_connected := true,
           current_telemetry := t, current_gforces := neutral_gforces,
           arduino_success := (send_to_arduino true writeFile neutral_gforces t).1,
           active := IsActive t },
         (send_to_arduino true writeFile neutral_gforces t).2) := by
    unfold process_telemetry_packet
    rw [hp]
    simp only [if_neg hidle]
  refine ⟨by rw [hproc], by rw [hproc], ?_, ?_, ?_⟩
  · rw [hproc]
    exact send_open_writes writeFile neutral_gforces t
  · show formatFixed (0 : ℚ) 3 ++ "," ++ formatFixed (0 : ℚ) 3 ++ ","
      ++ formatFixed (1 : ℚ) 3 ++ "," = _
    rw [formatFixed_zero3, formatFixed_one3]
    rfl
  · intro g
    simp only [extended_line, gforce_head, actuator_tail, string_append_assoc]

/-- C9, witness: the idle all-zero datagram produces the neutral sample
in the snapshot and transmits the extended line for the decoded frame. -/
theorem c9_witness :
    (process_telemetry_packet true alwaysOk initialUI fullDatagram).1.current_gforces
      = neutral_gforces ∧
    (process_telemetry_packet true alwaysOk initialUI fullDatagram).2
      = [extended_line neutral_gforces zeroFrame] := by
  have hidle : ¬ IsActive zeroFrame := by
    intro h
    have h' : speed_kmh zeroFrame > 1 ∨ zeroFrame.current_engine_rpm > 1000 := h
    have hs : speed zeroFrame = 0 := by
      unfold speed
      norm_num [zeroFrame, Real.sqrt_zero]
    rcases h' with h' | h'
    · unfold speed_kmh at h'
      rw [hs] at h'
      norm_num at h'
    · norm_num [zeroFrame] at h'
  have h := c9_idle_neutral_keeps_actuators alwaysOk initialUI fullDatagram zeroFrame rfl hidle
  exact ⟨h.1, h.2.2.1⟩

/-- C10: the transmit sink reports success exactly when the serial
handle is open, the write call succeeds, and the reported byte count
equals the line length; with the handle closed it fails immediately and
hands nothing to the write call.  This holds for both encoders. -/
theorem c10_transmit_success (serial_open : Bool) (w : String → WriteResult)
    (g : GForces) (t : TelemetryData) :
    ((send_to_arduino serial_open w g t).1 = true ↔
      (serial_open = true ∧ (w (extended_line g t)).ok = true ∧
        (w (extended_line g t)).bytes_written = (extended_line g t).length)) ∧
    (serial_open = false → send_to_arduino serial_open w g t = (false, [])) ∧
    ((send_to_arduino_legacy serial_open w g).1 = true ↔
      (serial_open = true ∧ (w (legacy_line g)).ok = true ∧
        (w (legacy_line g)).bytes_written = (legacy_line g).length)) ∧
    (serial_open = false → send_to_arduino_legacy serial_open w g = (false, [])) := by
  cases serial_open
  · simp [send_to_arduino, send_to_arduino_legacy]
  · unfold send_to_arduino send_to_arduino_legacy
    cases h1 : (w (extended_line g t)).ok <;> cases h2 : (w (legacy_line g)).ok <;>
      simp [h1, h2, beq_iff_eq]

/-- C10, witness: with the handle closed nothing is written and the call
fails; with it open and a full write the call succeeds. -/
theorem c10_witness :
    send_to_arduino false alwaysOk neutral_gforces zeroFrame = (false, []) ∧
    (send_to_arduino true alwaysOk neutral_gforces zeroFrame).1 = true := by
  refine ⟨(c10_transmit_success false alwaysOk neutral_gforces zeroFrame).2.1 rfl, ?_⟩
  exact (c10_transmit_success true alwaysOk neutral_gforces zeroFrame).1.mpr ⟨rfl, rfl, rfl⟩

end Forza
